import Mathlib

/-!
Shallow embedding of the ml-setup chat scripts
(src/chat_gpt_oss_20b.py and src/chat_qwen3_30b.py).
The two scripts are line-for-line identical except for model paths,
payload constants and VRAM thresholds; shared code is embedded once and
script-specific data is embedded per script.
-/

namespace MlSetup

/-- Abstract filesystem: the three probes the scripts perform
(os.path.exists, os.path.isdir, os.listdir). -/
structure FS where
  pathExists : String → Bool
  isDir : String → Bool
  listdir : String → List String

/-- os.path.join for the relative components used by the scripts. -/
def joinPath (a b : String) : String := a ++ "/" ++ b

/-- Lexicographic comparison of character lists by code point, the order
Python uses to compare strings. -/
def lexLe : List Char → List Char → Bool
  | [], _ => true
  | _ :: _, [] => false
  | a :: as, b :: bs =>
    if a.toNat < b.toNat then true
    else if b.toNat < a.toNat then false
    else lexLe as bs

/-- Python string comparison. -/
def strLe (a b : String) : Bool := lexLe a.data b.data

/-- Python sorted on a list of strings (lexicographic). -/
def sortedStrings (l : List String) : List String :=
  l.insertionSort (fun a b => strLe a b = true)

/-- sorted(snapshots)[-1]: the lexicographically last element. -/
def latestOf (l : List String) : String := (sortedStrings l).getLastD ""

/-- Body of one iteration of the loop in find_model_path: the value the
iteration returns, none when the loop falls through to the next candidate. -/
def snapshotResult (fs : FS) (path : String) : Option String :=
  if fs.pathExists path = true then
    let snapshots_dir := joinPath path "snapshots"
    if fs.pathExists snapshots_dir = true then
      let snapshots := (fs.listdir snapshots_dir).filter
        (fun d => fs.isDir (joinPath snapshots_dir d))
      match snapshots with
      | [] => none
      | _ :: _ =>
        let latest_snapshot := latestOf snapshots
        let model_path := joinPath snapshots_dir latest_snapshot
        if fs.pathExists (joinPath model_path "config.json") = true then
          some model_path
        else none
    else none
  else none

/-- find_model_path, generic in the candidate list. -/
def find_model_path (fs : FS) : List String → Option String
  | [] => none
  | p :: rest =>
    match snapshotResult fs p with
    | some m => some m
    | none => find_model_path fs rest

/-- The model_paths list of chat_gpt_oss_20b.py; home stands for the result
of os.path.expanduser on the tilde. -/
def gptossModelPaths (home : String) : List String :=
  ["/data/ml/models/huggingface/models--openai--gpt-oss-20b",
   home ++ "/.cache/huggingface/hub/models--openai--gpt-oss-20b",
   "/data/ml/models/openai/gpt-oss-20b"]

/-- The model_paths list of chat_qwen3_30b.py. -/
def qwenModelPaths (home : String) : List String :=
  ["/data/ml/models/huggingface/models--Qwen--Qwen3-30B-A3B-Instruct-2507",
   home ++ "/.cache/huggingface/hub/models--Qwen--Qwen3-30B-A3B-Instruct-2507",
   "/data/ml/models/Qwen/Qwen3-30B-A3B-Instruct-2507"]

/-- Modelled from the words of the claim for comparison with the code:
the snapshot path a candidate directory would yield. -/
def specLatestSnapshotPath (fs : FS) (p : String) : String :=
  let sd := joinPath p "snapshots"
  joinPath sd (latestOf ((fs.listdir sd).filter (fun d => fs.isDir (joinPath sd d))))

/-- Modelled from the words of the claim: a candidate is accepted when it
exists, has a snapshots subdirectory with at least one subdirectory, and the
lexicographically greatest such subdirectory contains a config.json. -/
def specCandidateOk (fs : FS) (p : String) : Bool :=
  fs.pathExists p &&
  (fs.pathExists (joinPath p "snapshots") &&
  ((!((fs.listdir (joinPath p "snapshots")).filter
      (fun d => fs.isDir (joinPath (joinPath p "snapshots") d))).isEmpty) &&
  fs.pathExists (joinPath (specLatestSnapshotPath fs p) "config.json")))

/-- Modelled from the words of the claim: return the snapshot path of the
first accepted candidate, none when no candidate is accepted. -/
def findModelPathSpec (fs : FS) (paths : List String) : Option String :=
  (paths.find? (specCandidateOk fs)).map (specLatestSnapshotPath fs)

/-- GPU selection of chat_gpt_oss_20b.py main: args.cpu branch, then
args.gpu branch, then the auto-detect threshold of 24 GB. -/
def decideUseGpu_gptoss (argsCpu argsGpu hasCuda : Bool) (gpuMemGb : Nat) : Bool :=
  if argsCpu = true then
    false
  else if argsGpu = true then
    if hasCuda = true then true else false
  else
    if hasCuda = true ∧ 24 ≤ gpuMemGb then true else false

/-- GPU selection of chat_qwen3_30b.py main: args.cpu branch, then args.gpu
branch, then auto-detect with the 40 GB branch and the 24 GB branch. -/
def decideUseGpu_qwen (argsCpu argsGpu hasCuda : Bool) (gpuMemGb : Nat) : Bool :=
  if argsCpu = true then
    false
  else if argsGpu = true then
    if hasCuda = true then true else false
  else
    if hasCuda = true ∧ 40 ≤ gpuMemGb then true
    else if hasCuda = true ∧ 24 ≤ gpuMemGb then true
    else false

/-! ## wait_for_server

The while loop of wait_for_server polls /health, printing a dot and sleeping
two seconds after each failed poll, while the elapsed time stays under the
timeout. Time is modelled as the sum of the two-second sleeps; the poll with
index n is made at elapsed time 2n. health n is the outcome of poll n:
some status for an HTTP response, none for a requests exception. The loop is
embedded with a fuel argument large enough never to be exhausted before the
timeout guard fails. -/

/-- One run of the wait loop: the returned Bool and the printed lines. -/
def waitAux (health : Nat → Option Nat) (timeout : Nat) :
    Nat → Nat → Nat → Bool × List String
  | 0, _, _ => (false, ["Server failed to start within timeout"])
  | fuel + 1, elapsed, n =>
    if elapsed < timeout then
      if health n = some 200 then (true, ["Server is ready!"])
      else
        let r := waitAux health timeout fuel (elapsed + 2) (n + 1)
        (r.1, "." :: r.2)
    else (false, ["Server failed to start within timeout"])

/-- wait_for_server with its default timeout argument of 300 seconds. -/
def wait_for_server (health : Nat → Option Nat) (timeout : Nat := 300) :
    Bool × List String :=
  waitAux health timeout (timeout + 1) 0 0

/-! ## The chat loop -/

/-- Python str.strip on whitespace, written over the character list so that
it evaluates inside the kernel. -/
def pyStrip (s : String) : String :=
  ⟨((s.data.dropWhile Char.isWhitespace).reverse.dropWhile Char.isWhitespace).reverse⟩

/-- Python str.lower, written over the character list so that it evaluates
inside the kernel. -/
def pyLower (s : String) : String := ⟨s.data.map Char.toLower⟩

/-- One role/content entry of conversation_history. -/
structure Msg where
  role : String
  content : String
deriving DecidableEq, Repr

/-- Outcome of the POST to /v1/chat/completions in one iteration:
a timeout, another requests exception, or a response with a status code and
the contents of the choices array (content of each choice message). -/
inductive HttpResult where
  | timeout
  | reqError (e : String)
  | ok (status : Nat) (choices : List String)
deriving DecidableEq, Repr

/-- What one loop iteration does: quit breaks out of the loop; next carries
the new conversation_history, the messages list POSTed (none when no request
was sent), and the lines printed on the error paths. -/
inductive StepOut where
  | quit
  | next (hist : List Msg) (sent : Option (List Msg)) (errs : List String)
deriving DecidableEq, Repr

/-- The messages list an iteration POSTed, none for quit. -/
def StepOut.sent : StepOut → Option (List Msg)
  | .quit => none
  | .next _ s _ => s

/-- The conversation_history an iteration leaves behind (quit keeps it). -/
def StepOut.histOr (h : List Msg) : StepOut → List Msg
  | .quit => h
  | .next h2 _ _ => h2

def quitWords : List String := ["quit", "exit", "bye"]

/-- One iteration of the while loop of chat_with_model, identical in both
scripts: strip the input, break on quit words, skip empty input, append the
user turn, POST, and on a 200 with a nonempty choices array append the
assistant turn and truncate the history past 20 entries; error paths print
and leave the appended user turn in place. -/
def chatStep (hist : List Msg) (rawInput : String) (http : HttpResult) :
    StepOut :=
  let user_input := pyStrip rawInput
  if pyLower user_input ∈ quitWords then .quit
  else if user_input = "" then .next hist none []
  else
    let hist1 := hist ++ [⟨"user", user_input⟩]
    match http with
    | .timeout =>
        .next hist1 (some hist1)
          ["Request timed out - the model might be overloaded"]
    | .reqError e => .next hist1 (some hist1) ["Request failed: " ++ e]
    | .ok status choices =>
        if status = 200 then
          match choices with
          | [] => .next hist1 (some hist1) ["No response generated"]
          | c :: _ =>
            let hist2 := hist1 ++ [⟨"assistant", c⟩]
            let hist3 :=
              if 20 < hist2.length then hist2.drop (hist2.length - 20)
              else hist2
            .next hist3 (some hist1) []
        else
          .next hist1 (some hist1)
            ["Server error: " ++ toString status, "Response body"]

/-- Running the chat loop over a script of iterations (input line and HTTP
outcome per iteration), returning the final conversation_history. -/
def runChat (hist : List Msg) : List (String × HttpResult) → List Msg
  | [] => hist
  | (inp, http) :: rest =>
    match chatStep hist inp http with
    | .quit => hist
    | .next h _ _ => runChat h rest

/-- The JSON payload of chat_gpt_oss_20b.py, with temperature 0.7 held in
tenths so that the model stays in exact arithmetic. -/
structure PayloadGptoss where
  model : String
  messages : List Msg
  max_tokens : Nat
  temperatureTenths : Nat
  stream : Bool
deriving DecidableEq, Repr

/-- The payload built from the current conversation_history in
chat_gpt_oss_20b.py. -/
def mkPayload_gptoss (hist : List Msg) : PayloadGptoss :=
  { model := "default", messages := hist, max_tokens := 512,
    temperatureTenths := 7, stream := false }

/-- The JSON payload of chat_qwen3_30b.py, with temperature 0.7 and
top_p 0.8 held in tenths. -/
structure PayloadQwen where
  model : String
  messages : List Msg
  max_tokens : Nat
  temperatureTenths : Nat
  top_pTenths : Nat
  stream : Bool
deriving DecidableEq, Repr

/-- The payload built from the current conversation_history in
chat_qwen3_30b.py. -/
def mkPayload_qwen (hist : List Msg) : PayloadQwen :=
  { model := "default", messages := hist, max_tokens := 1024,
    temperatureTenths := 7, top_pTenths := 8, stream := false }

/-! ## main -/

/-- Events of a run of main: printed lines that the claims mention, the call
to find_model_path, the server subprocess spawn, the chat session, and the
terminate and wait calls of the finally block. -/
inductive Ev where
  | msg (s : String)
  | probe
  | spawn
  | chatSession
  | terminate
  | waitProc (t : Nat)
deriving DecidableEq, Repr

/-- The environment a run of main observes: dependency presence, the
filesystem, the home directory, the parsed flags, the detected CUDA facts,
the answer typed at the CPU-mode confirmation prompt, whether
subprocess.Popen succeeds, and the /health poll outcomes. -/
structure MainEnv where
  sglangInstalled : Bool
  fs : FS
  home : String
  argsCpu : Bool
  argsGpu : Bool
  hasCuda : Bool
  gpuMemGb : Nat
  cpuAnswer : String
  spawnOk : Bool
  health : Nat → Option Nat

/-- The CPU-mode confirmation prompt: the run is cancelled when the stripped
lowercased answer is n or no. -/
def cpuDeclined (answer : String) : Bool :=
  pyLower (pyStrip answer) = "n" || pyLower (pyStrip answer) = "no"

/-- main of chat_gpt_oss_20b.py: the exit status and the event trace.
The chat loop itself is modelled separately by chatStep and runChat; here it
is the chatSession event between server readiness and the finally block. -/
def main_gptoss (env : MainEnv) : Int × List Ev :=
  if env.sglangInstalled = false then
    (1, [Ev.msg "SGLang not found! Activate the ml_env virtual environment.",
         Ev.msg "Activate with: source ~/ml_env/bin/activate"])
  else
    match find_model_path env.fs (gptossModelPaths env.home) with
    | none =>
      (1, [Ev.probe,
           Ev.msg "GPT-OSS-20B model not found!",
           Ev.msg "Expected locations:",
           Ev.msg "  - /data/ml/models/huggingface/models--openai--gpt-oss-20b",
           Ev.msg "  - ~/.cache/huggingface/hub/models--openai--gpt-oss-20b",
           Ev.msg "Download with: huggingface-cli download openai/gpt-oss-20b"])
    | some _ =>
      let use_gpu := decideUseGpu_gptoss env.argsCpu env.argsGpu env.hasCuda env.gpuMemGb
      if use_gpu = false ∧ cpuDeclined env.cpuAnswer = true then
        (0, [Ev.probe])
      else if env.spawnOk = false then
        (1, [Ev.probe])
      else if (wait_for_server env.health).1 = false then
        (1, [Ev.probe, Ev.spawn, Ev.terminate, Ev.waitProc 10])
      else
        (0, [Ev.probe, Ev.spawn, Ev.chatSession, Ev.terminate, Ev.waitProc 10])

/-- main of chat_qwen3_30b.py: the exit status and the event trace. -/
def main_qwen (env : MainEnv) : Int × List Ev :=
  if env.sglangInstalled = false then
    (1, [Ev.msg "SGLang not found! Activate the ml_env virtual environment.",
         Ev.msg "Activate with: source ~/ml_env/bin/activate"])
  else
    match find_model_path env.fs (qwenModelPaths env.home) with
    | none =>
      (1, [Ev.probe,
           Ev.msg "Qwen3-30B-A3B-Instruct-2507 model not found!",
           Ev.msg "Expected locations:",
           Ev.msg "  - /data/ml/models/huggingface/models--Qwen--Qwen3-30B-A3B-Instruct-2507",
           Ev.msg "  - ~/.cache/huggingface/hub/models--Qwen--Qwen3-30B-A3B-Instruct-2507",
           Ev.msg "Download with: huggingface-cli download Qwen/Qwen3-30B-A3B-Instruct-2507"])
    | some _ =>
      let use_gpu := decideUseGpu_qwen env.argsCpu env.argsGpu env.hasCuda env.gpuMemGb
      if use_gpu = false ∧ cpuDeclined env.cpuAnswer = true then
        (0, [Ev.probe])
      else if env.spawnOk = false then
        (1, [Ev.probe])
      else if (wait_for_server env.health).1 = false then
        (1, [Ev.probe, Ev.spawn, Ev.terminate, Ev.waitProc 10])
      else
        (0, [Ev.probe, Ev.spawn, Ev.chatSession, Ev.terminate, Ev.waitProc 10])

/-- The failing POST outcomes the error-handling claim is about: a requests
timeout, another requests exception, or a response with a non-200 status. -/
def failedHttp : HttpResult → Bool
  | .timeout => true
  | .reqError _ => true
  | .ok status _ => !(status == 200)

/-! ## Concrete demonstration data -/

/-- A filesystem holding one snapshot of each model in its first candidate
directory. -/
def demoFS : FS :=
  { pathExists := fun p => p ∈
      ["/data/ml/models/huggingface/models--openai--gpt-oss-20b",
       "/data/ml/models/huggingface/models--openai--gpt-oss-20b/snapshots",
       "/data/ml/models/huggingface/models--openai--gpt-oss-20b/snapshots/s1",
       "/data/ml/models/huggingface/models--openai--gpt-oss-20b/snapshots/s1/config.json",
       "/data/ml/models/huggingface/models--Qwen--Qwen3-30B-A3B-Instruct-2507",
       "/data/ml/models/huggingface/models--Qwen--Qwen3-30B-A3B-Instruct-2507/snapshots",
       "/data/ml/models/huggingface/models--Qwen--Qwen3-30B-A3B-Instruct-2507/snapshots/s1",
       "/data/ml/models/huggingface/models--Qwen--Qwen3-30B-A3B-Instruct-2507/snapshots/s1/config.json"],
    isDir := fun p =>
      p = "/data/ml/models/huggingface/models--openai--gpt-oss-20b/snapshots/s1" ∨
      p = "/data/ml/models/huggingface/models--Qwen--Qwen3-30B-A3B-Instruct-2507/snapshots/s1",
    listdir := fun p =>
      if p = "/data/ml/models/huggingface/models--openai--gpt-oss-20b/snapshots"
      then ["s1"]
      else if p = "/data/ml/models/huggingface/models--Qwen--Qwen3-30B-A3B-Instruct-2507/snapshots"
      then ["s1"] else [] }

/-- A filesystem with no files at all. -/
def emptyFS : FS :=
  { pathExists := fun _ => false, isDir := fun _ => false,
    listdir := fun _ => [] }

/-- An environment whose server process starts but never becomes healthy. -/
def demoEnvDown : MainEnv :=
  { sglangInstalled := true, fs := demoFS, home := "/h", argsCpu := false,
    argsGpu := false, hasCuda := true, gpuMemGb := 24, cpuAnswer := "",
    spawnOk := true, health := fun _ => none }

/-- An environment whose server answers every health poll with 200. -/
def demoEnvUp : MainEnv :=
  { demoEnvDown with health := fun _ => some 200 }

/-- An environment in which the sglang import fails. -/
def demoEnvNoSglang : MainEnv :=
  { demoEnvDown with sglangInstalled := false }

/-- An environment with sglang present but no model on disk. -/
def demoEnvNoModel : MainEnv :=
  { demoEnvDown with fs := emptyFS }

/-- One successful chat exchange. -/
def demoIterOk : String × HttpResult := ("a", .ok 200 ["b"])

/-- Ten successful exchanges followed by an iteration whose POST gets
a 503 response. -/
def demoScript : List (String × HttpResult) :=
  List.replicate 10 demoIterOk ++ [("c", .ok 503 [])]

/-! ## Theorems -/

/-- C1: in auto-detect mode (neither flag passed) both scripts set use_gpu
to true exactly when CUDA is available and the detected GPU memory is at
least 24 GB; in chat_qwen3_30b.py the 40 GB threshold does not change the
selected mode, so below it only the warning differs. -/
theorem claim1_auto_detect_vram_threshold (hasCuda : Bool) (gpuMemGb : Nat) :
    decideUseGpu_gptoss false false hasCuda gpuMemGb
      = (hasCuda && decide (24 ≤ gpuMemGb)) ∧
    decideUseGpu_qwen false false hasCuda gpuMemGb
      = (hasCuda && decide (24 ≤ gpuMemGb)) := by
  constructor
  · unfold decideUseGpu_gptoss
    cases hasCuda <;> by_cases h : 24 ≤ gpuMemGb <;> simp [h]
  · unfold decideUseGpu_qwen
    cases hasCuda <;>
      by_cases h40 : 40 ≤ gpuMemGb <;> by_cases h24 : 24 ≤ gpuMemGb <;>
        simp [h40, h24]
    all_goals omega

/-- C9: when both the cpu and the gpu flag are passed, the cpu branch is
tested first, so use_gpu is false in both scripts whatever CUDA reports. -/
theorem claim9_cpu_flag_precedence (hasCuda : Bool) (gpuMemGb : Nat) :
    decideUseGpu_gptoss true true hasCuda gpuMemGb = false ∧
    decideUseGpu_qwen true true hasCuda gpuMemGb = false := by
  constructor
  · unfold decideUseGpu_gptoss
    simp
  · unfold decideUseGpu_qwen
    simp

/-- One candidate of the find_model_path loop behaves as the claim says:
it yields the latest snapshot path exactly when the candidate is accepted. -/
theorem snapshotResult_eq_spec (fs : FS) (p : String) :
    snapshotResult fs p =
      if specCandidateOk fs p = true then some (specLatestSnapshotPath fs p)
      else none := by
  unfold snapshotResult specCandidateOk specLatestSnapshotPath latestOf
  by_cases h1 : fs.pathExists p = true
  · by_cases h2 : fs.pathExists (joinPath p "snapshots") = true
    · cases hl : (fs.listdir (joinPath p "snapshots")).filter
        (fun d => fs.isDir (joinPath (joinPath p "snapshots") d)) with
      | nil => simp [h1, h2, hl]
      | cons a as =>
        by_cases h3 : fs.pathExists (joinPath (joinPath (joinPath p "snapshots")
            ((sortedStrings (a :: as)).getLastD "")) "config.json") = true <;>
          simp [h1, h2, hl, h3]
    · simp [h1, h2]
  · simp [h1]

/-- find_model_path returns the latest snapshot path of the first accepted
candidate, none when no candidate is accepted. -/
theorem find_model_path_eq_spec (fs : FS) (paths : List String) :
    find_model_path fs paths = findModelPathSpec fs paths := by
  induction paths with
  | nil => rfl
  | cons p rest ih =>
    rw [find_model_path, snapshotResult_eq_spec]
    by_cases h : specCandidateOk fs p = true
    · simp [h, findModelPathSpec, List.find?_cons_of_pos _ h]
    · simp only [h, if_false]
      rw [ih]
      simp [findModelPathSpec, List.find?_cons_of_neg _ (by simpa using h)]

/-- C2: for both scripts, find_model_path probes its fixed three candidate
directories in order and returns the latest-snapshot path of the first
candidate that exists, whose snapshots subdirectory exists and contains at
least one subdirectory, and whose lexicographically greatest such
subdirectory contains a config.json; otherwise (in particular when a
candidate exists without a snapshots subdirectory) it returns none. -/
theorem claim2_find_model_path_first_accepted (fs : FS) (home : String) :
    find_model_path fs (gptossModelPaths home)
      = findModelPathSpec fs (gptossModelPaths home) ∧
    find_model_path fs (qwenModelPaths home)
      = findModelPathSpec fs (qwenModelPaths home) :=
  ⟨find_model_path_eq_spec fs (gptossModelPaths home),
   find_model_path_eq_spec fs (qwenModelPaths home)⟩

/-- The wait loop returns true exactly when some poll made while the elapsed
time is still under the timeout returns status 200. -/
theorem waitAux_true_iff (health : Nat → Option Nat) (T : Nat) :
    ∀ fuel e n, T ≤ e + fuel →
      ((waitAux health T fuel e n).1 = true ↔
        ∃ k, e + 2 * k < T ∧ health (n + k) = some 200) := by
  intro fuel
  induction fuel with
  | zero =>
    intro e n hT
    constructor
    · intro h
      simp [waitAux] at h
    · rintro ⟨k, hk, _⟩
      omega
  | succ fuel ih =>
    intro e n hT
    by_cases he : e < T
    · by_cases hh : health n = some 200
      · constructor
        · intro _
          exact ⟨0, by omega, by simpa using hh⟩
        · intro _
          simp [waitAux, he, hh]
      · have ih2 := ih (e + 2) (n + 1) (by omega)
        constructor
        · intro h
          have h2 : (waitAux health T fuel (e + 2) (n + 1)).1 = true := by
            simpa [waitAux, he, hh] using h
          obtain ⟨k, hk1, hk2⟩ := ih2.mp h2
          refine ⟨k + 1, by omega, ?_⟩
          rw [show n + (k + 1) = n + 1 + k by omega]
          exact hk2
        · rintro ⟨k, hk1, hk2⟩
          cases k with
          | zero => exact absurd (by simpa using hk2) hh
          | succ k =>
            have h2 : (waitAux health T fuel (e + 2) (n + 1)).1 = true := by
              refine ih2.mpr ⟨k, by omega, ?_⟩
              rw [show n + 1 + k = n + (k + 1) by omega]
              exact hk2
            simpa [waitAux, he, hh] using h2
    · constructor
      · intro h
        simp [waitAux, he] at h
      · rintro ⟨k, hk, _⟩
        omega

/-- When the wait loop returns false, its last printed line is the timeout
error. -/
theorem waitAux_err_suffix (health : Nat → Option Nat) (T : Nat) :
    ∀ fuel e n, (waitAux health T fuel e n).1 = false →
      ∃ pre, (waitAux health T fuel e n).2
        = pre ++ ["Server failed to start within timeout"] := by
  intro fuel
  induction fuel with
  | zero =>
    intro e n _
    exact ⟨[], rfl⟩
  | succ fuel ih =>
    intro e n h
    by_cases he : e < T
    · by_cases hh : health n = some 200
      · simp [waitAux, he, hh] at h
      · have h2 : (waitAux health T fuel (e + 2) (n + 1)).1 = false := by
          simpa [waitAux, he, hh] using h
        obtain ⟨pre, hp⟩ := ih (e + 2) (n + 1) h2
        refine ⟨"." :: pre, ?_⟩
        simp [waitAux, he, hh, hp]
    · exact ⟨[], by simp [waitAux, he]⟩

/-- C3: wait_for_server polls at two-second intervals and returns true
exactly when some poll inside the timeout window gets status 200; when no
poll does, it returns false with the timeout error as its last printed line,
and a run of main that had started the server then exits with status 1. -/
theorem claim3_wait_readiness_and_timeout (health : Nat → Option Nat)
    (T : Nat) (env : MainEnv) :
    ((wait_for_server health T).1 = true ↔
      ∃ n, 2 * n < T ∧ health n = some 200) ∧
    ((wait_for_server health T).1 = false →
      ∃ pre, (wait_for_server health T).2
        = pre ++ ["Server failed to start within timeout"]) ∧
    ((wait_for_server env.health).1 = false →
      Ev.spawn ∈ (main_gptoss env).2 → (main_gptoss env).1 = 1) := by
  refine ⟨?_, ?_, ?_⟩
  · have h := waitAux_true_iff health T (T + 1) 0 0 (by omega)
    simpa [wait_for_server] using h
  · intro h
    exact waitAux_err_suffix health T (T + 1) 0 0
      (by simpa [wait_for_server] using h)
  · intro hw hs
    by_cases h1 : env.sglangInstalled = false
    · simp [main_gptoss, h1] at hs
    · cases hfind : find_model_path env.fs (gptossModelPaths env.home) with
      | none => simp [main_gptoss, h1, hfind] at hs
      | some mp =>
        by_cases h2 : decideUseGpu_gptoss env.argsCpu env.argsGpu
            env.hasCuda env.gpuMemGb = false ∧ cpuDeclined env.cpuAnswer = true
        · simp [main_gptoss, h1, hfind, h2] at hs
        · by_cases h3 : env.spawnOk = false
          · simp [main_gptoss, h1, hfind, h2, h3] at hs
          · simp [main_gptoss, h1, hfind, h2, h3, hw]

/-- Witness for C3 at a server that never becomes healthy. -/
theorem claim3_witness :
    (∃ pre, (wait_for_server (fun _ => none) 300).2
      = pre ++ ["Server failed to start within timeout"]) ∧
    (main_gptoss demoEnvDown).1 = 1 := by
  constructor
  · exact (claim3_wait_readiness_and_timeout (fun _ => none) 300
      demoEnvDown).2.1 (by decide)
  · exact (claim3_wait_readiness_and_timeout (fun _ => none) 300
      demoEnvDown).2.2 (by decide) (by decide)

/-- C4: an iteration whose POST raises a timeout, raises another request
exception, or gets a non-200 status prints an error line, leaves exactly the
appended user turn in the history (no assistant turn), and the loop
continues with the next iteration. -/
theorem claim4_http_failure_continues (hist : List Msg) (inp : String)
    (http : HttpResult) (rest : List (String × HttpResult))
    (hq : pyLower (pyStrip inp) ∉ quitWords) (he : pyStrip inp ≠ "")
    (hf : failedHttp http = true) :
    ∃ errs, errs ≠ [] ∧
      chatStep hist inp http
        = .next (hist ++ [⟨"user", pyStrip inp⟩])
            (some (hist ++ [⟨"user", pyStrip inp⟩])) errs ∧
      runChat hist ((inp, http) :: rest)
        = runChat (hist ++ [⟨"user", pyStrip inp⟩]) rest := by
  have hstep : ∃ errs, errs ≠ [] ∧
      chatStep hist inp http
        = .next (hist ++ [⟨"user", pyStrip inp⟩])
            (some (hist ++ [⟨"user", pyStrip inp⟩])) errs := by
    cases http with
    | timeout =>
      exact ⟨["Request timed out - the model might be overloaded"],
        by simp, by simp [chatStep, hq, he]⟩
    | reqError e =>
      exact ⟨["Request failed: " ++ e], by simp, by simp [chatStep, hq, he]⟩
    | ok status choices =>
      have h200 : ¬ status = 200 := by
        intro h
        simp [failedHttp, h] at hf
      exact ⟨["Server error: " ++ toString status, "Response body"],
        by simp, by simp [chatStep, hq, he, h200]⟩
  obtain ⟨errs, hne, hstep⟩ := hstep
  refine ⟨errs, hne, hstep, ?_⟩
  rw [runChat, hstep]

/-- Witness for C4 at a 503 response. -/
theorem claim4_witness :
    ∃ errs, errs ≠ [] ∧
      chatStep [] "a" (.ok 503 [])
        = .next ([] ++ [⟨"user", pyStrip "a"⟩])
            (some ([] ++ [⟨"user", pyStrip "a"⟩])) errs ∧
      runChat [] [("a", .ok 503 [])]
        = runChat ([] ++ [⟨"user", pyStrip "a"⟩]) [] :=
  claim4_http_failure_continues [] "a" (.ok 503 []) []
    (by decide) (by decide) (by decide)

/-- C10: an iteration whose input strips to the empty string leaves the
history unchanged, sends no request, prints nothing, and the loop moves on
to the next iteration. -/
theorem claim10_empty_input_skips (hist : List Msg) (inp : String)
    (http : HttpResult) (rest : List (String × HttpResult))
    (he : pyStrip inp = "") :
    chatStep hist inp http = .next hist none [] ∧
    runChat hist ((inp, http) :: rest) = runChat hist rest := by
  have hq0 : pyLower "" ∉ quitWords := by decide
  have hstep : chatStep hist inp http = .next hist none [] := by
    simp [chatStep, he, hq0]
  refine ⟨hstep, ?_⟩
  rw [runChat, hstep]

/-- Witness for C10 at a whitespace-only input line. -/
theorem claim10_witness :
    chatStep [] " " .timeout = .next [] none [] ∧
    runChat [] [(" ", .timeout)] = runChat [] [] :=
  claim10_empty_input_skips [] " " .timeout [] (by decide)

/-- C7: whenever an iteration sends a request, the messages field of both
payloads is exactly the in-memory history of that moment (the prior history
with the user turn appended), entry for entry and in order, and every entry
holds a role of user or assistant next to its content. -/
theorem claim7_messages_forwarded_verbatim (hist : List Msg) (inp : String)
    (http : HttpResult) (ms : List Msg)
    (hroles : ∀ m ∈ hist, m.role = "user" ∨ m.role = "assistant")
    (hsent : (chatStep hist inp http).sent = some ms) :
    (mkPayload_gptoss ms).messages = ms ∧
    (mkPayload_qwen ms).messages = ms ∧
    ms = hist ++ [⟨"user", pyStrip inp⟩] ∧
    ∀ m ∈ ms, m.role = "user" ∨ m.role = "assistant" := by
  have hms : ms = hist ++ [⟨"user", pyStrip inp⟩] := by
    by_cases hq : pyLower (pyStrip inp) ∈ quitWords
    · simp [chatStep, hq, StepOut.sent] at hsent
    · by_cases he : pyStrip inp = ""
      · have hq0 : pyLower "" ∉ quitWords := by decide
        simp [chatStep, hq, he, hq0, StepOut.sent] at hsent
      · cases http with
        | timeout =>
          simp [chatStep, hq, he, StepOut.sent] at hsent
          exact hsent.symm
        | reqError e =>
          simp [chatStep, hq, he, StepOut.sent] at hsent
          exact hsent.symm
        | ok status choices =>
          by_cases h200 : status = 200
          · cases choices with
            | nil =>
              simp [chatStep, hq, he, h200, StepOut.sent] at hsent
              exact hsent.symm
            | cons c cs =>
              simp [chatStep, hq, he, h200, StepOut.sent] at hsent
              exact hsent.symm
          · simp [chatStep, hq, he, h200, StepOut.sent] at hsent
            exact hsent.symm
  refine ⟨rfl, rfl, hms, ?_⟩
  intro m hm
  rw [hms] at hm
  rcases List.mem_append.mp hm with h | h
  · exact hroles m h
  · simp only [List.mem_singleton] at h
    subst h
    exact Or.inl rfl

/-- Witness for C7 at a one-message send. -/
theorem claim7_witness :
    (mkPayload_gptoss [⟨"user", "a"⟩]).messages = [⟨"user", "a"⟩] ∧
    (mkPayload_qwen [⟨"user", "a"⟩]).messages = [⟨"user", "a"⟩] ∧
    ([⟨"user", "a"⟩] : List Msg) = [] ++ [⟨"user", pyStrip "a"⟩] ∧
    ∀ m ∈ ([⟨"user", "a"⟩] : List Msg),
      m.role = "user" ∨ m.role = "assistant" :=
  claim7_messages_forwarded_verbatim [] "a" (.ok 200 ["b"]) [⟨"user", "a"⟩]
    (by simp) (by decide)

/-- C6 counterexample: from an empty history, ten successful exchanges fill
the history to 20 entries and an eleventh iteration whose POST gets a 503
leaves 21 entries in place, so the next iteration starts with a history of
more than 20 entries. -/
theorem claim6_counterexample :
    (runChat [] demoScript).length = 21 ∧
    20 < (runChat [] demoScript).length := by
  constructor
  · decide
  · decide

/-- C6 amended: after every successful exchange (user turn appended,
assistant turn appended) the history is truncated past 20 entries, so a
successful exchange always leaves at most 20 entries; iterations whose
request fails keep the appended user turn without truncation and can leave
more. -/
theorem claim6_truncation_after_success (hist h2 : List Msg) (inp : String)
    (c : String) (cs : List String)
    (hq : pyLower (pyStrip inp) ∉ quitWords) (he : pyStrip inp ≠ "")
    (hh2 : h2 = hist ++ [⟨"user", pyStrip inp⟩, ⟨"assistant", c⟩]) :
    (chatStep hist inp (.ok 200 (c :: cs))).histOr hist
      = (if 20 < h2.length then h2.drop (h2.length - 20) else h2) ∧
    ((chatStep hist inp (.ok 200 (c :: cs))).histOr hist).length ≤ 20 := by
  subst hh2
  have hstep :
      (chatStep hist inp (.ok 200 (c :: cs))).histOr hist
        = (if 20 < (hist ++ [Msg.mk "user" (pyStrip inp), Msg.mk "assistant" c]).length
           then (hist ++ [Msg.mk "user" (pyStrip inp), Msg.mk "assistant" c]).drop
                ((hist ++ [Msg.mk "user" (pyStrip inp), Msg.mk "assistant" c]).length - 20)
           else hist ++ [Msg.mk "user" (pyStrip inp), Msg.mk "assistant" c]) := by
    simp [chatStep, hq, he, StepOut.histOr]
  refine ⟨hstep, ?_⟩
  rw [hstep]
  split <;> rename_i h <;>
    simp only [List.length_drop, List.length_append, List.length_cons,
      List.length_nil] at h ⊢ <;>
    omega

/-- Witness for C6 amended at a short history. -/
theorem claim6_witness :
    (chatStep [] "a" (.ok 200 ["b"])).histOr []
      = (if 20 < ([⟨"user", "a"⟩, ⟨"assistant", "b"⟩] : List Msg).length
         then ([⟨"user", "a"⟩, ⟨"assistant", "b"⟩] : List Msg).drop
              (([⟨"user", "a"⟩, ⟨"assistant", "b"⟩] : List Msg).length - 20)
         else [⟨"user", "a"⟩, ⟨"assistant", "b"⟩]) ∧
    ((chatStep [] "a" (.ok 200 ["b"])).histOr []).length ≤ 20 :=
  claim6_truncation_after_success [] [⟨"user", "a"⟩, ⟨"assistant", "b"⟩]
    "a" "b" [] (by decide) (by decide) (by decide)

/-- C5: when the sglang import fails, both mains print the dependency
message and return 1 without probing for the model and without spawning the
server; when the import succeeds but no model is found, both mains print
their expected candidate locations and return 1 without spawning. -/
theorem claim5_dependency_and_model_errors (env : MainEnv) :
    (env.sglangInstalled = false →
      main_gptoss env
        = (1, [Ev.msg "SGLang not found! Activate the ml_env virtual environment.",
               Ev.msg "Activate with: source ~/ml_env/bin/activate"]) ∧
      main_qwen env
        = (1, [Ev.msg "SGLang not found! Activate the ml_env virtual environment.",
               Ev.msg "Activate with: source ~/ml_env/bin/activate"]) ∧
      Ev.probe ∉ (main_gptoss env).2 ∧ Ev.spawn ∉ (main_gptoss env).2 ∧
      Ev.probe ∉ (main_qwen env).2 ∧ Ev.spawn ∉ (main_qwen env).2) ∧
    (env.sglangInstalled = true →
      find_model_path env.fs (gptossModelPaths env.home) = none →
      (main_gptoss env).1 = 1 ∧
      Ev.msg "  - /data/ml/models/huggingface/models--openai--gpt-oss-20b"
        ∈ (main_gptoss env).2 ∧
      Ev.msg "  - ~/.cache/huggingface/hub/models--openai--gpt-oss-20b"
        ∈ (main_gptoss env).2 ∧
      Ev.spawn ∉ (main_gptoss env).2) ∧
    (env.sglangInstalled = true →
      find_model_path env.fs (qwenModelPaths env.home) = none →
      (main_qwen env).1 = 1 ∧
      Ev.msg "  - /data/ml/models/huggingface/models--Qwen--Qwen3-30B-A3B-Instruct-2507"
        ∈ (main_qwen env).2 ∧
      Ev.msg "  - ~/.cache/huggingface/hub/models--Qwen--Qwen3-30B-A3B-Instruct-2507"
        ∈ (main_qwen env).2 ∧
      Ev.spawn ∉ (main_qwen env).2) := by
  refine ⟨?_, ?_, ?_⟩
  · intro h
    simp [main_gptoss, main_qwen, h]
  · intro h1 h2
    simp [main_gptoss, h1, h2]
  · intro h1 h2
    simp [main_qwen, h1, h2]

/-- Witness for C5 at a missing dependency and at an empty filesystem. -/
theorem claim5_witness :
    main_gptoss demoEnvNoSglang
      = (1, [Ev.msg "SGLang not found! Activate the ml_env virtual environment.",
             Ev.msg "Activate with: source ~/ml_env/bin/activate"]) ∧
    (main_gptoss demoEnvNoModel).1 = 1 ∧
    Ev.spawn ∉ (main_gptoss demoEnvNoModel).2 ∧
    (main_qwen demoEnvNoModel).1 = 1 ∧
    Ev.spawn ∉ (main_qwen demoEnvNoModel).2 := by
  refine ⟨((claim5_dependency_and_model_errors demoEnvNoSglang).1
      (by decide)).1, ?_, ?_, ?_, ?_⟩
  · exact ((claim5_dependency_and_model_errors demoEnvNoModel).2.1
      (by decide) (by decide)).1
  · exact ((claim5_dependency_and_model_errors demoEnvNoModel).2.1
      (by decide) (by decide)).2.2.2
  · exact ((claim5_dependency_and_model_errors demoEnvNoModel).2.2
      (by decide) (by decide)).1
  · exact ((claim5_dependency_and_model_errors demoEnvNoModel).2.2
      (by decide) (by decide)).2.2.2

/-- C8: in every run of main whose event trace contains a server spawn,
exactly one spawn occurs, and the trace ends with the terminate call
followed by the wait with the fixed 10-second timeout, in both scripts. -/
theorem claim8_single_spawn_and_cleanup (env : MainEnv) :
    (Ev.spawn ∈ (main_gptoss env).2 →
      (main_gptoss env).2.count Ev.spawn = 1 ∧
      ∃ pre, (main_gptoss env).2 = pre ++ [Ev.terminate, Ev.waitProc 10]) ∧
    (Ev.spawn ∈ (main_qwen env).2 →
      (main_qwen env).2.count Ev.spawn = 1 ∧
      ∃ pre, (main_qwen env).2 = pre ++ [Ev.terminate, Ev.waitProc 10]) := by
  constructor
  · intro hs
    by_cases h1 : env.sglangInstalled = false
    · simp [main_gptoss, h1] at hs
    · cases hfind : find_model_path env.fs (gptossModelPaths env.home) with
      | none => simp [main_gptoss, h1, hfind] at hs
      | some mp =>
        by_cases h2 : decideUseGpu_gptoss env.argsCpu env.argsGpu
            env.hasCuda env.gpuMemGb = false ∧ cpuDeclined env.cpuAnswer = true
        · simp [main_gptoss, h1, hfind, h2] at hs
        · by_cases h3 : env.spawnOk = false
          · simp [main_gptoss, h1, hfind, h2, h3] at hs
          · by_cases h4 : (wait_for_server env.health).1 = false
            · refine ⟨?_, [Ev.probe, Ev.spawn], ?_⟩ <;>
                simp [main_gptoss, h1, hfind, h2, h3, h4]
            · refine ⟨?_, [Ev.probe, Ev.spawn, Ev.chatSession], ?_⟩ <;>
                simp [main_gptoss, h1, hfind, h2, h3, h4]
  · intro hs
    by_cases h1 : env.sglangInstalled = false
    · simp [main_qwen, h1] at hs
    · cases hfind : find_model_path env.fs (qwenModelPaths env.home) with
      | none => simp [main_qwen, h1, hfind] at hs
      | some mp =>
        by_cases h2 : decideUseGpu_qwen env.argsCpu env.argsGpu
            env.hasCuda env.gpuMemGb = false ∧ cpuDeclined env.cpuAnswer = true
        · simp [main_qwen, h1, hfind, h2] at hs
        · by_cases h3 : env.spawnOk = false
          · simp [main_qwen, h1, hfind, h2, h3] at hs
          · by_cases h4 : (wait_for_server env.health).1 = false
            · refine ⟨?_, [Ev.probe, Ev.spawn], ?_⟩ <;>
                simp [main_qwen, h1, hfind, h2, h3, h4]
            · refine ⟨?_, [Ev.probe, Ev.spawn, Ev.chatSession], ?_⟩ <;>
                simp [main_qwen, h1, hfind, h2, h3, h4]

/-- Witness for C8 at a healthy run of both scripts. -/
theorem claim8_witness :
    ((main_gptoss demoEnvUp).2.count Ev.spawn = 1 ∧
      ∃ pre, (main_gptoss demoEnvUp).2
        = pre ++ [Ev.terminate, Ev.waitProc 10]) ∧
    ((main_qwen demoEnvUp).2.count Ev.spawn = 1 ∧
      ∃ pre, (main_qwen demoEnvUp).2
        = pre ++ [Ev.terminate, Ev.waitProc 10]) :=
  ⟨(claim8_single_spawn_and_cleanup demoEnvUp).1 (by decide),
   (claim8_single_spawn_and_cleanup demoEnvUp).2 (by decide)⟩

end MlSetup
